import Mathlib

/-!
Verification of the 3LE parsing / timeline pipeline of
`src/visualize.py` (satellite-3D-orbit-visualizer).

The script's original logic is shallowly embedded below:
* `load_satellites` embeds the parser loop (visualize.py lines 7-24);
  the network fetch is out of scope, so the parser takes the response
  text directly.  Python `str.splitlines` and `str.strip` are embedded
  as `splitlines` and `pyStrip`.
* the configuration constants, the color list, the orbit traces,
  initial markers, animation frames and the frame-export index loop are
  embedded further below, parametric in the propagator (the external
  skyfield library), which is modelled as an injected function
  `EarthSatellite → PosSeries`.
-/

/-- Python whitespace for `str.strip()` (ASCII subset). -/
def isPySpace (c : Char) : Bool :=
  c = ' ' || c = '\t' || c = '\n' || c = '\r' || c = '\x0b' || c = '\x0c'

/-- Embedding of Python `str.strip()`: drop whitespace at both ends. -/
def pyStrip (s : String) : String :=
  String.mk (((s.data.dropWhile isPySpace).reverse.dropWhile isPySpace).reverse)

/-- Embedding of Python `str.startswith(p)`. -/
def strStartsWith (s p : String) : Bool :=
  p.data.isPrefixOf s.data

/-- Worker for `splitlines`: accumulates the current line (reversed). -/
def splitlinesGo : List Char → List Char → List (List Char)
  | [], acc => if acc.isEmpty then [] else [acc.reverse]
  | '\r' :: '\n' :: rest, acc => acc.reverse :: splitlinesGo rest []
  | '\r' :: rest, acc => acc.reverse :: splitlinesGo rest []
  | '\n' :: rest, acc => acc.reverse :: splitlinesGo rest []
  | c :: rest, acc => splitlinesGo rest (c :: acc)

/-- Embedding of Python `str.splitlines()` (LF, CR, CRLF separators;
no trailing empty line for a trailing terminator). -/
def splitlines (s : String) : List String :=
  (splitlinesGo s.data []).map String.mk

/-- An element record, as built by the parser: the (stripped) name line
and the two (stripped) element lines.  Embeds the data handed to
skyfield `EarthSatellite(line1, line2, name, ts)`. -/
structure EarthSatellite where
  name : String
  line1 : String
  line2 : String
  deriving Repr, DecidableEq, Inhabited

/-- The parser's `while` loop (visualize.py lines 16-23): scan index `i`
advances by 3 each iteration; the group at `i`, `i+1`, `i+2` is accepted
only when (after stripping) line 1 starts with `"1 "` and line 2 starts
with `"2 "`.  All three reads are guarded by `i + 2 < lines.length`, so
no out-of-bounds index is ever accessed. -/
def loadSatellitesLoop (lines : List String) (max_sats : Nat)
    (i : Nat) (sats : List EarthSatellite) : List EarthSatellite :=
  if h : sats.length < max_sats ∧ i + 2 < lines.length then
    let name := pyStrip (lines.get ⟨i, by omega⟩)
    let line1 := pyStrip (lines.get ⟨i + 1, by omega⟩)
    let line2 := pyStrip (lines.get ⟨i + 2, by omega⟩)
    if strStartsWith line1 "1 " && strStartsWith line2 "2 " then
      loadSatellitesLoop lines max_sats (i + 3) (sats ++ [⟨name, line1, line2⟩])
    else
      loadSatellitesLoop lines max_sats (i + 3) sats
  else
    sats
  termination_by lines.length - i
  decreasing_by all_goals omega

/-- The parser on an already split line list. -/
def load_satellites_lines (lines : List String) (max_sats : Nat) :
    List EarthSatellite :=
  loadSatellitesLoop lines max_sats 0 []

/-- Embedding of `load_satellites` (visualize.py lines 7-24) on the
fetched text: split into lines, then run the scan loop. -/
def load_satellites (text : String) (max_sats : Nat := 30) :
    List EarthSatellite :=
  load_satellites_lines (splitlines text) max_sats

/-- The candidate 3-line groups of a line list, in order: chunks of
three consecutive lines, the incomplete tail dropped. -/
def candidateGroups : List String → List (String × String × String)
  | l1 :: l2 :: l3 :: rest => (l1, l2, l3) :: candidateGroups rest
  | _ => []

/-- The acceptance test one candidate group goes through in the loop
body: strip all three lines, check both element-line prefixes. -/
def acceptGroup (g : String × String × String) : Option EarthSatellite :=
  let name := pyStrip g.1
  let line1 := pyStrip g.2.1
  let line2 := pyStrip g.2.2
  if strStartsWith line1 "1 " && strStartsWith line2 "2 " then
    some ⟨name, line1, line2⟩
  else
    none

/-- Process candidate groups in order, keeping accepted ones until the
capacity is exhausted; a skipped group does not consume capacity. -/
def takeCap : Nat → List (String × String × String) → List EarthSatellite
  | _, [] => []
  | cap, g :: gs =>
    if cap = 0 then []
    else
      match acceptGroup g with
      | some s => s :: takeCap (cap - 1) gs
      | none => takeCap cap gs

/-!
Scene / timeline layer (visualize.py lines 26-104 and the export loop,
lines 159-165).  The external skyfield propagator is modelled as an
injected function `prop : EarthSatellite → PosSeries`; everything the
script itself computes is embedded, parametric in the fetched `text`
and in `prop`.
-/

/-- A `PositionSeries`: `pos d k` is row `d` (0 = X, 1 = Y, 2 = Z, in
km) at time-grid index `k`, mirroring the indexing `pos[d, k]` into the
3×N array returned by `geocentric.position.km`. -/
abbrev PosSeries := Nat → Nat → ℚ

/-- Configuration constant (visualize.py line 27). -/
def STARLINK_URL : String :=
  "https://celestrak.org/NORAD/elements/gp.php?GROUP=starlink&FORMAT=tle"

/-- Configuration constant (visualize.py line 28). -/
def MAX_SATS : Nat := 30

/-- Configuration constant (visualize.py line 29): 0.1 days. -/
def DURATION_DAYS : ℚ := 1 / 10

/-- Configuration constant (visualize.py line 30). -/
def NUM_FRAMES : Nat := 300

/-- The satellites global (visualize.py line 34). -/
def satellites (text : String) : List EarthSatellite :=
  load_satellites text MAX_SATS

/-- The fixed calendar anchor of the time grid (visualize.py line 36):
`ts.utc(2026, 2, 1)`, a constant instant, not the current time. -/
def start_time : Int × Int × Int := (2026, 2, 1)

/-- The time grid offsets in days from `start_time` (visualize.py line
37): `ts.linspace(start_time, start_time + DURATION_DAYS, NUM_FRAMES)`,
NUM_FRAMES evenly spaced points spanning the duration. -/
def time_grid (k : Nat) : ℚ :=
  (k : ℚ) * DURATION_DAYS / ((NUM_FRAMES : ℚ) - 1)

/-- The per-satellite position arrays (visualize.py lines 39-44): one
`PosSeries` per satellite, in satellite order. -/
def positions (text : String) (prop : EarthSatellite → PosSeries) :
    List PosSeries :=
  (satellites text).map prop

/-- The per-satellite display names (visualize.py line 45): names
truncated to 20 characters. -/
def names (text : String) : List String :=
  (satellites text).map (fun s => s.name.take 20)

/-- The base 10-color palette (visualize.py line 48, left factor). -/
def base_colors : List String :=
  ["#636EFA", "#EF553B", "#00CC96", "#AB63FA", "#FFA15A",
   "#19D3F3", "#FF6692", "#B6E880", "#FF97FF", "#FECB52"]

/-- The replicated color list (visualize.py line 48):
`base * (MAX_SATS // 10 + 1)`. -/
def colors : List String :=
  List.join (List.replicate (MAX_SATS / 10 + 1) base_colors)

/-- One static orbit path trace (an element of the `orbit_traces` list,
visualize.py lines 66-74): the full coordinate rows of one satellite
plus line styling. -/
structure Trace where
  x : Nat → ℚ
  y : Nat → ℚ
  z : Nat → ℚ
  width : Nat
  color : String
  name : String
  deriving Inhabited

/-- One satellite marker (`go.Scatter3d(..., mode='markers', ...)`,
visualize.py lines 80-85 and 96-101): a single position, marker size,
color and name. -/
structure Marker where
  x : ℚ
  y : ℚ
  z : ℚ
  size : Nat
  color : String
  name : String
  deriving DecidableEq, Inhabited

/-- One animation frame (`go.Frame(data=..., name=str(frame_num))`,
visualize.py line 102). -/
structure Frame where
  data : List Marker
  name : String
  deriving DecidableEq, Inhabited

/-- The static orbit traces (visualize.py lines 66-74): one per entry
of `positions`, via `enumerate`. -/
def orbit_traces (text : String) (prop : EarthSatellite → PosSeries) :
    List Trace :=
  (positions text prop).enum.map (fun p =>
    { x := p.2 0, y := p.2 1, z := p.2 2, width := 3,
      color := colors.getD p.1 "", name := (names text).getD p.1 "" })

/-- The initial satellite markers (visualize.py lines 77-85): for each
satellite index, its position at time-grid index 0. -/
def initial_markers (text : String) (prop : EarthSatellite → PosSeries) :
    List Marker :=
  (List.range (satellites text).length).map (fun i =>
    let pos := (positions text prop).getD i default
    { x := pos 0 0, y := pos 1 0, z := pos 2 0, size := 8,
      color := colors.getD i "", name := (names text).getD i "" })

/-- The animation frames (visualize.py lines 91-102): for each
`frame_num` in `range(NUM_FRAMES)`, one marker per satellite at
time-grid index `frame_num`, named `str(frame_num)`. -/
def frames (text : String) (prop : EarthSatellite → PosSeries) :
    List Frame :=
  (List.range NUM_FRAMES).map (fun frame_num =>
    { data := (List.range (satellites text).length).map (fun i =>
        let pos := (positions text prop).getD i default
        { x := pos 0 frame_num, y := pos 1 frame_num, z := pos 2 frame_num,
          size := 8, color := colors.getD i "",
          name := (names text).getD i "" }),
      name := toString frame_num })

/-- Embedding of Python `range(start, stop, step)` for positive step. -/
def pyRange (start stop step : Nat) : List Nat :=
  (List.range ((stop - start + (step - 1)) / step)).map
    (fun k => start + step * k)

/-- The time-grid indices visited by the export loop (visualize.py line
161): `range(0, NUM_FRAMES, 2)`. -/
def export_frame_nums : List Nat := pyRange 0 NUM_FRAMES 2

/-- The frame snapshots written out by the export loop (visualize.py
lines 160-165): the marker data of `frames[frame_num]` for each visited
index, in visit order (`frame_idx` numbers them consecutively). -/
def exported_frames (text : String) (prop : EarthSatellite → PosSeries) :
    List (List Marker) :=
  export_frame_nums.map (fun frame_num =>
    ((frames text prop).getD frame_num default).data)

/-- Ambient run context the script could in principle observe but never
does: the wall-clock time and a random seed.  `visualize.py` reads
neither (the only time used is the fixed constant `ts.utc(2026, 2, 1)`
and no random source is imported), so the embedded pipeline ignores
this argument. -/
structure Env where
  now : Int
  seed : Nat

/-- The full embedded pipeline on one run context: parsed records,
position series, the animation frame sequence, and the exported frame
snapshots, from the raw input text and the injected propagator. -/
def pipeline (env : Env) (text : String)
    (prop : EarthSatellite → PosSeries) :
    List EarthSatellite × List PosSeries × List Frame × List (List Marker) :=
  (satellites text, positions text prop, frames text prop,
    exported_frames text prop)

lemma takeCap_zero (gs : List (String × String × String)) :
    takeCap 0 gs = [] := by
  cases gs <;> simp [takeCap]

lemma candidateGroups_short (l : List String) (h : l.length < 3) :
    candidateGroups l = [] := by
  match l with
  | [] => rfl
  | [a] => rfl
  | [a, b] => rfl
  | a :: b :: c :: rest => simp at h; omega

lemma loadSatellitesLoop_spec (lines : List String) (max_sats : Nat) :
    ∀ n i sats, lines.length - i ≤ n →
      loadSatellitesLoop lines max_sats i sats =
        sats ++ takeCap (max_sats - sats.length) (candidateGroups (lines.drop i)) := by
  intro n
  induction n with
  | zero =>
    intro i sats h
    rw [loadSatellitesLoop]
    rw [dif_neg (by omega)]
    rw [candidateGroups_short _ (by simp; omega)]
    simp [takeCap]
  | succ n ih =>
    intro i sats h
    rw [loadSatellitesLoop]
    by_cases hg : sats.length < max_sats ∧ i + 2 < lines.length
    · rw [dif_pos hg]
      have h0 : i < lines.length := by omega
      have h1 : i + 1 < lines.length := by omega
      have h2 : i + 2 < lines.length := hg.2
      have hdrop : lines.drop i =
          lines.get ⟨i, h0⟩ :: lines.get ⟨i + 1, h1⟩ :: lines.get ⟨i + 2, h2⟩ ::
            lines.drop (i + 3) := by
        rw [List.drop_eq_get_cons h0, List.drop_eq_get_cons h1,
          List.drop_eq_get_cons h2]
      rw [hdrop]
      rw [candidateGroups]
      have hcap : max_sats - sats.length ≠ 0 := by omega
      cases hacc :
          (strStartsWith (pyStrip (lines.get ⟨i + 1, h1⟩)) "1 " &&
            strStartsWith (pyStrip (lines.get ⟨i + 2, h2⟩)) "2 ") with
      | true =>
        simp only [hacc, if_true]
        rw [takeCap, if_neg hcap]
        have hag : acceptGroup
            (lines.get ⟨i, h0⟩, lines.get ⟨i + 1, h1⟩, lines.get ⟨i + 2, h2⟩) =
            some ⟨pyStrip (lines.get ⟨i, h0⟩), pyStrip (lines.get ⟨i + 1, h1⟩),
              pyStrip (lines.get ⟨i + 2, h2⟩)⟩ := by
          simp only [acceptGroup]
          rw [if_pos hacc]
        rw [hag]
        rw [ih (i + 3) _ (by omega)]
        simp only [List.length_append, List.length_cons, List.length_nil]
        rw [List.append_assoc]
        simp only [List.singleton_append]
        congr 2
      | false =>
        simp only [hacc, Bool.false_eq_true, if_false]
        rw [takeCap, if_neg hcap]
        have hag : acceptGroup
            (lines.get ⟨i, h0⟩, lines.get ⟨i + 1, h1⟩, lines.get ⟨i + 2, h2⟩) =
            none := by
          simp only [acceptGroup]
          rw [if_neg (by rw [hacc]; exact Bool.false_ne_true)]
        rw [hag]
        exact ih (i + 3) sats (by omega)
    · rw [dif_neg hg]
      push_neg at hg
      by_cases hlen : sats.length < max_sats
      · have : i + 2 ≥ lines.length := by
          have := hg hlen; omega
        rw [candidateGroups_short _ (by simp; omega)]
        simp [takeCap]
      · have : max_sats - sats.length = 0 := by omega
        rw [this, takeCap_zero, List.append_nil]

/-- The parser, rephrased: it processes exactly the candidate 3-line
groups, in order, with capacity `max_sats`. -/
lemma load_satellites_lines_eq (lines : List String) (max_sats : Nat) :
    load_satellites_lines lines max_sats =
      takeCap max_sats (candidateGroups lines) := by
  have := loadSatellitesLoop_spec lines max_sats lines.length 0 [] (by omega)
  simpa [load_satellites_lines] using this

lemma load_satellites_eq (text : String) (max_sats : Nat) :
    load_satellites text max_sats =
      takeCap max_sats (candidateGroups (splitlines text)) := by
  rw [load_satellites, load_satellites_lines_eq]

lemma takeCap_length_le (cap : Nat) (gs : List (String × String × String)) :
    (takeCap cap gs).length ≤ cap := by
  induction gs generalizing cap with
  | nil => simp [takeCap]
  | cons g gs ih =>
    rw [takeCap]
    by_cases hc : cap = 0
    · simp [hc]
    · rw [if_neg hc]
      cases hag : acceptGroup g with
      | none => exact le_trans (ih cap) (le_refl cap)
      | some s =>
        simp only [List.length_cons]
        have := ih (cap - 1)
        omega

lemma acceptGroup_some (g : String × String × String) (s : EarthSatellite)
    (h : acceptGroup g = some s) :
    strStartsWith s.line1 "1 " = true ∧ strStartsWith s.line2 "2 " = true ∧
      s = ⟨pyStrip g.1, pyStrip g.2.1, pyStrip g.2.2⟩ := by
  simp only [acceptGroup] at h
  by_cases hc : (strStartsWith (pyStrip g.2.1) "1 " &&
      strStartsWith (pyStrip g.2.2) "2 ") = true
  · rw [if_pos hc] at h
    cases h
    simp only [Bool.and_eq_true] at hc
    exact ⟨hc.1, hc.2, rfl⟩
  · rw [if_neg hc] at h
    cases h

lemma takeCap_mem (cap : Nat) (gs : List (String × String × String))
    (s : EarthSatellite) (h : s ∈ takeCap cap gs) :
    ∃ g ∈ gs, acceptGroup g = some s := by
  induction gs generalizing cap with
  | nil => simp [takeCap] at h
  | cons g gs ih =>
    rw [takeCap] at h
    by_cases hc : cap = 0
    · rw [if_pos hc] at h; simp at h
    · rw [if_neg hc] at h
      cases hag : acceptGroup g with
      | none =>
        rw [hag] at h
        obtain ⟨g', hg', hs⟩ := ih cap h
        exact ⟨g', List.mem_cons_of_mem _ hg', hs⟩
      | some s' =>
        rw [hag] at h
        rcases List.mem_cons.mp h with h | h
        · exact ⟨g, List.mem_cons_self _ _, by rw [hag, h]⟩
        · obtain ⟨g', hg', hs⟩ := ih (cap - 1) h
          exact ⟨g', List.mem_cons_of_mem _ hg', hs⟩

/-- Claim C1: for every input text and maximum record count, the parser
emits at most `max_sats` records, and every emitted record's element
line 1 starts with "1 " and element line 2 starts with "2 " (the stored
lines are the per-line-stripped input lines); a group failing either
prefix check is never emitted. -/
theorem parser_cap_and_prefix_invariant (text : String) (max_sats : Nat) :
    (load_satellites text max_sats).length ≤ max_sats ∧
      ∀ s ∈ load_satellites text max_sats,
        strStartsWith s.line1 "1 " = true ∧ strStartsWith s.line2 "2 " = true := by
  rw [load_satellites_eq]
  refine ⟨takeCap_length_le _ _, ?_⟩
  intro s hs
  obtain ⟨g, _, hg⟩ := takeCap_mem _ _ _ hs
  have := acceptGroup_some g s hg
  exact ⟨this.1, this.2.1⟩

/-- Witness for C1 at a concrete input. -/
theorem parser_cap_and_prefix_invariant_witness :
    (load_satellites "ISS (ZARYA)\n1 25544U 98067A\n2 25544  51.6428\n" 30).length ≤ 30 ∧
      strStartsWith
        (EarthSatellite.mk "ISS (ZARYA)" "1 25544U 98067A" "2 25544  51.6428").line1
        "1 " = true :=
  ⟨(parser_cap_and_prefix_invariant "ISS (ZARYA)\n1 25544U 98067A\n2 25544  51.6428\n" 30).1,
    ((parser_cap_and_prefix_invariant "ISS (ZARYA)\n1 25544U 98067A\n2 25544  51.6428\n" 30).2
      ⟨"ISS (ZARYA)", "1 25544U 98067A", "2 25544  51.6428"⟩
      (by
        rw [load_satellites_eq]
        have hev : takeCap 30 (candidateGroups
            (splitlines "ISS (ZARYA)\n1 25544U 98067A\n2 25544  51.6428\n")) =
            [⟨"ISS (ZARYA)", "1 25544U 98067A", "2 25544  51.6428"⟩] := by decide
        rw [hev]
        exact List.mem_singleton.mpr rfl)).1⟩

lemma takeCap_nil (cap : Nat) : takeCap cap [] = [] := rfl

lemma takeCap_cons_accept (cap : Nat) (g : String × String × String)
    (gs : List (String × String × String)) (s : EarthSatellite)
    (hc : cap ≠ 0) (h : acceptGroup g = some s) :
    takeCap cap (g :: gs) = s :: takeCap (cap - 1) gs := by
  rw [takeCap, if_neg hc, h]

lemma takeCap_cons_skip (cap : Nat) (g : String × String × String)
    (gs : List (String × String × String))
    (hc : cap ≠ 0) (h : acceptGroup g = none) :
    takeCap cap (g :: gs) = takeCap cap gs := by
  rw [takeCap, if_neg hc, h]

lemma acceptGroup_eq_some (n a b : String)
    (ha : strStartsWith (pyStrip a) "1 " = true)
    (hb : strStartsWith (pyStrip b) "2 " = true) :
    acceptGroup (n, a, b) = some ⟨pyStrip n, pyStrip a, pyStrip b⟩ := by
  simp only [acceptGroup]
  rw [if_pos (by rw [ha, hb]; rfl)]

lemma acceptGroup_eq_none_of_bad_line1 (n a b : String)
    (ha : strStartsWith (pyStrip a) "1 " = false) :
    acceptGroup (n, a, b) = none := by
  simp only [acceptGroup]
  rw [if_neg (by rw [ha]; simp)]

/-- Claim C4: an input text that is exactly one well-formed 3-line
group (free name line, a line whose stripped form starts with "1 ",
a line whose stripped form starts with "2 ") parses, with capacity at
least 1, to exactly one record holding the three stripped lines. -/
theorem parser_single_wellformed_group (text n a b : String) (M : Nat)
    (hsplit : splitlines text = [n, a, b])
    (ha : strStartsWith (pyStrip a) "1 " = true)
    (hb : strStartsWith (pyStrip b) "2 " = true)
    (hM : 1 ≤ M) :
    load_satellites text M = [⟨pyStrip n, pyStrip a, pyStrip b⟩] := by
  rw [load_satellites_eq, hsplit]
  have hg : candidateGroups [n, a, b] = [(n, a, b)] := rfl
  rw [hg, takeCap_cons_accept M _ _ _ (by omega) (acceptGroup_eq_some n a b ha hb),
    takeCap_nil]

/-- Witness for C4 at a concrete one-group input. -/
theorem parser_single_wellformed_group_witness :
    load_satellites "ISS (ZARYA)  \n 1 25544U 98067A \n2 25544  51.6428\n" 1 =
      [⟨"ISS (ZARYA)", "1 25544U 98067A", "2 25544  51.6428"⟩] :=
  parser_single_wellformed_group
    "ISS (ZARYA)  \n 1 25544U 98067A \n2 25544  51.6428\n"
    "ISS (ZARYA)  " " 1 25544U 98067A " "2 25544  51.6428" 1
    (by decide) (by decide) (by decide) (by decide)

/-- Claim C2: a malformed middle group (line 1 failing the "1 " prefix
check) sandwiched between two well-formed groups is silently skipped:
with capacity at least 2 the parser returns exactly the two records of
the surrounding well-formed groups, in input order. -/
theorem parser_skips_malformed_middle_group
    (text n1 a1 a2 n2 b1 b2 n3 c1 c2 : String) (M : Nat)
    (hsplit : splitlines text = [n1, a1, a2, n2, b1, b2, n3, c1, c2])
    (h1a : strStartsWith (pyStrip a1) "1 " = true)
    (h1b : strStartsWith (pyStrip a2) "2 " = true)
    (hbad : strStartsWith (pyStrip b1) "1 " = false)
    (h3a : strStartsWith (pyStrip c1) "1 " = true)
    (h3b : strStartsWith (pyStrip c2) "2 " = true)
    (hM : 2 ≤ M) :
    load_satellites text M =
      [⟨pyStrip n1, pyStrip a1, pyStrip a2⟩,
        ⟨pyStrip n3, pyStrip c1, pyStrip c2⟩] := by
  rw [load_satellites_eq, hsplit]
  have hg : candidateGroups [n1, a1, a2, n2, b1, b2, n3, c1, c2] =
      [(n1, a1, a2), (n2, b1, b2), (n3, c1, c2)] := rfl
  rw [hg]
  rw [takeCap_cons_accept M _ _ _ (by omega) (acceptGroup_eq_some n1 a1 a2 h1a h1b)]
  rw [takeCap_cons_skip (M - 1) _ _ (by omega)
    (acceptGroup_eq_none_of_bad_line1 n2 b1 b2 hbad)]
  rw [takeCap_cons_accept (M - 1) _ _ _ (by omega)
    (acceptGroup_eq_some n3 c1 c2 h3a h3b)]
  rw [takeCap_nil]

/-- Witness for C2 at a concrete sandwiched-malformed input. -/
theorem parser_skips_malformed_middle_group_witness :
    load_satellites
      "SAT A\n1 11111U\n2 11111\nJUNK\nX garbage\n2 22222\nSAT B\n1 33333U\n2 33333" 2 =
      [⟨"SAT A", "1 11111U", "2 11111"⟩, ⟨"SAT B", "1 33333U", "2 33333"⟩] :=
  parser_skips_malformed_middle_group
    "SAT A\n1 11111U\n2 11111\nJUNK\nX garbage\n2 22222\nSAT B\n1 33333U\n2 33333"
    "SAT A" "1 11111U" "2 11111" "JUNK" "X garbage" "2 22222"
    "SAT B" "1 33333U" "2 33333" 2
    (by decide) (by decide) (by decide) (by decide) (by decide) (by decide)
    (by decide)

lemma candidateGroups_append_extra (extra : List String)
    (hx : extra.length ≤ 2) :
    ∀ l : List String, 3 ∣ l.length →
      candidateGroups (l ++ extra) = candidateGroups l := by
  have main : ∀ (n : Nat) (l : List String), l.length ≤ n → 3 ∣ l.length →
      candidateGroups (l ++ extra) = candidateGroups l := by
    intro n
    induction n with
    | zero =>
      intro l hl _
      have : l = [] := List.length_eq_zero.mp (by omega)
      subst this
      simp only [List.nil_append]
      rw [candidateGroups_short extra (by omega), candidateGroups_short [] (by simp)]
    | succ n ih =>
      intro l hl hdvd
      match l with
      | [] =>
        simp only [List.nil_append]
        rw [candidateGroups_short extra (by omega), candidateGroups_short [] (by simp)]
      | [a] => simp at hdvd
      | [a, b] => simp at hdvd; omega
      | a :: b :: c :: rest =>
        simp only [List.cons_append]
        rw [candidateGroups, candidateGroups]
        have hlen : rest.length ≤ n := by simp at hl; omega
        have hdvd' : 3 ∣ rest.length := by simp at hdvd ⊢; omega
        rw [ih rest hlen hdvd']
  intro l
  exact main l.length l (le_refl _)

/-- Claim C5: the parser stops once capacity is reached or fewer than
3 unconsumed lines remain.  In particular up to 2 trailing lines after
complete 3-line groups are dropped without affecting the result, and
the output never exceeds the capacity.  (Out-of-bounds access is ruled
out by construction: `loadSatellitesLoop` reads lines only through
`List.get` at indices proved in bounds from the loop guard.) -/
theorem parser_stops_and_drops_trailing (lines extra : List String) (M : Nat)
    (hx : extra.length ≤ 2) (hdvd : 3 ∣ lines.length) :
    load_satellites_lines (lines ++ extra) M = load_satellites_lines lines M ∧
      (load_satellites_lines (lines ++ extra) M).length ≤ M := by
  rw [load_satellites_lines_eq, load_satellites_lines_eq,
    candidateGroups_append_extra extra hx lines hdvd]
  exact ⟨rfl, takeCap_length_le _ _⟩

/-- Witness for C5: one full group plus 2 trailing lines. -/
theorem parser_stops_and_drops_trailing_witness :
    load_satellites_lines ["SAT A", "1 11111U", "2 11111", "SAT B", "1 22222U"] 5 =
        load_satellites_lines ["SAT A", "1 11111U", "2 11111"] 5 ∧
      (load_satellites_lines ["SAT A", "1 11111U", "2 11111", "SAT B", "1 22222U"] 5).length ≤ 5 :=
  parser_stops_and_drops_trailing ["SAT A", "1 11111U", "2 11111"]
    ["SAT B", "1 22222U"] 5 (by decide) (by decide)

lemma candidateGroups_get?_of (k : Nat) :
    ∀ (lines : List String) (a b c : String),
      lines.get? (3 * k) = some a → lines.get? (3 * k + 1) = some b →
      lines.get? (3 * k + 2) = some c →
      (candidateGroups lines).get? k = some (a, b, c) := by
  induction k with
  | zero =>
    intro lines a b c ha hb hc
    match lines with
    | [] => simp at ha
    | [x] => simp at hb
    | [x, y] => simp at hc
    | x :: y :: z :: rest =>
      simp only [Nat.mul_zero, List.get?_cons_zero, List.get?_cons_succ,
        Nat.zero_add] at ha hb hc
      rw [candidateGroups]
      rw [List.get?_cons_zero]
      cases ha; cases hb; cases hc
      rfl
  | succ k ih =>
    intro lines a b c ha hb hc
    have hlt : 3 * (k + 1) + 2 < lines.length := List.get?_eq_some.mp hc |>.1
    match lines with
    | [] => simp at hlt
    | [x] => simp at hlt
    | [x, y] => simp at hlt
    | x :: y :: z :: rest =>
      have e : 3 * (k + 1) = 3 * k + 3 := by ring
      rw [e] at ha hb hc
      have ha' : rest.get? (3 * k) = some a := by
        simpa using ha
      have hb' : rest.get? (3 * k + 1) = some b := by
        have : 3 * k + 3 + 1 = (3 * k + 1) + 1 + 1 + 1 := by ring
        rw [this] at hb
        simpa using hb
      have hc' : rest.get? (3 * k + 2) = some c := by
        have : 3 * k + 3 + 2 = (3 * k + 2) + 1 + 1 + 1 := by ring
        rw [this] at hc
        simpa using hc
      rw [candidateGroups]
      rw [List.get?_cons_succ]
      exact ih rest a b c ha' hb' hc'

lemma takeCap_append_skip (gs1 : List (String × String × String)) :
    ∀ (M : Nat) (g : String × String × String)
      (gs2 : List (String × String × String)), acceptGroup g = none →
      takeCap M (gs1 ++ g :: gs2) = takeCap M (gs1 ++ gs2) := by
  induction gs1 with
  | nil =>
    intro M g gs2 hg
    by_cases hM : M = 0
    · subst hM; rw [takeCap_zero, takeCap_zero]
    · simp only [List.nil_append]
      rw [takeCap_cons_skip M g gs2 hM hg]
  | cons a gs1 ih =>
    intro M g gs2 hg
    by_cases hM : M = 0
    · subst hM; rw [takeCap_zero, takeCap_zero]
    · simp only [List.cons_append]
      cases hag : acceptGroup a with
      | some s =>
        rw [takeCap_cons_accept M _ _ _ hM hag, takeCap_cons_accept M _ _ _ hM hag]
        rw [ih (M - 1) g gs2 hg]
      | none =>
        rw [takeCap_cons_skip M _ _ hM hag, takeCap_cons_skip M _ _ hM hag]
        exact ih M g gs2 hg

/-- Claim C10: the parser's grouping is purely positional and never
resynchronizes: (1) the parser processes exactly the candidate groups,
which are consumed three lines at a time with the capacity as the only
other state (the scan index advances by 3 whether or not a group is
accepted, and the total function witnesses termination); (2) the k-th
candidate group consists exactly of lines 3k, 3k+1, 3k+2; (3) a group
whose middle line does not strip to a "1 "-prefixed string is never
accepted; (4) such a skipped group has no effect at all on the records
produced from the other groups. -/
theorem parser_positional_grouping :
    (∀ (lines : List String) (M : Nat),
        load_satellites_lines lines M = takeCap M (candidateGroups lines)) ∧
    (∀ (lines : List String) (k : Nat) (a b c : String),
        lines.get? (3 * k) = some a → lines.get? (3 * k + 1) = some b →
        lines.get? (3 * k + 2) = some c →
        (candidateGroups lines).get? k = some (a, b, c)) ∧
    (∀ g : String × String × String,
        strStartsWith (pyStrip g.2.1) "1 " = false → acceptGroup g = none) ∧
    (∀ (M : Nat) (gs1 gs2 : List (String × String × String))
        (g : String × String × String), acceptGroup g = none →
        takeCap M (gs1 ++ g :: gs2) = takeCap M (gs1 ++ gs2)) := by
  refine ⟨load_satellites_lines_eq, ?_, ?_, ?_⟩
  · intro lines k a b c
    exact candidateGroups_get?_of k lines a b c
  · intro g hg
    exact acceptGroup_eq_none_of_bad_line1 g.1 g.2.1 g.2.2 hg
  · intro M gs1 gs2 g hg
    exact takeCap_append_skip gs1 M g gs2 hg

/-- Witness for C10 at concrete inputs: the second candidate group of a
6-line list is lines 3,4,5; a group with a bad middle line is rejected;
its removal does not change the parse. -/
theorem parser_positional_grouping_witness :
    load_satellites_lines ["N", "1 a", "2 b"] 3 =
        takeCap 3 (candidateGroups ["N", "1 a", "2 b"]) ∧
      (candidateGroups ["p", "q", "r", "s", "t", "u"]).get? 1 = some ("s", "t", "u") ∧
      acceptGroup ("N", "X garbage", "2 b") = none ∧
      takeCap 9 ([("A", "1 x", "2 y")] ++ ("N", "X garbage", "2 b") :: []) =
        takeCap 9 ([("A", "1 x", "2 y")] ++ []) :=
  ⟨parser_positional_grouping.1 ["N", "1 a", "2 b"] 3,
    parser_positional_grouping.2.1 ["p", "q", "r", "s", "t", "u"] 1 "s" "t" "u"
      (by decide) (by decide) (by decide),
    parser_positional_grouping.2.2.1 ("N", "X garbage", "2 b") (by decide),
    parser_positional_grouping.2.2.2 9 [("A", "1 x", "2 y")] []
      ("N", "X garbage", "2 b") (by decide)⟩

lemma positions_getD (text : String) (prop : EarthSatellite → PosSeries)
    (i : Nat) (hi : i < (satellites text).length) :
    (positions text prop).getD i default =
      prop ((satellites text).get ⟨i, hi⟩) := by
  rw [List.getD_eq_getElem _ _ (by simpa [positions] using hi)]
  simp [positions]

lemma names_getD (text : String) (i : Nat)
    (hi : i < (satellites text).length) :
    (names text).getD i "" = ((satellites text).get ⟨i, hi⟩).name.take 20 := by
  rw [List.getD_eq_getElem _ _ (by simpa [names] using hi)]
  simp [names]

lemma frames_get? (text : String) (prop : EarthSatellite → PosSeries)
    (k : Nat) (hk : k < NUM_FRAMES) :
    (frames text prop).get? k = some
      { data := (List.range (satellites text).length).map (fun i =>
          let pos := (positions text prop).getD i default
          { x := pos 0 k, y := pos 1 k, z := pos 2 k, size := 8,
            color := colors.getD i "", name := (names text).getD i "" }),
        name := toString k } := by
  rw [frames, List.get?_map, List.get?_range hk, Option.map_some']

/-- Claim C6: for every time-grid index `k < NUM_FRAMES` the animation
has exactly one frame at position `k`; its marker list has one entry
per parsed satellite, in satellite order, and the i-th marker carries
exactly the i-th satellite's position-series column at index `k`
(x = positions[i][0,k], y = positions[i][1,k], z = positions[i][2,k])
together with that satellite's display name. -/
theorem frames_preserve_identity_to_position (text : String)
    (prop : EarthSatellite → PosSeries) (k : Nat) (hk : k < NUM_FRAMES) :
    (frames text prop).length = NUM_FRAMES ∧
    ∃ fr, (frames text prop).get? k = some fr ∧
      fr.data.length = (satellites text).length ∧
      ∀ i (hi : i < (satellites text).length),
        fr.data.get? i = some
          { x := prop ((satellites text).get ⟨i, hi⟩) 0 k,
            y := prop ((satellites text).get ⟨i, hi⟩) 1 k,
            z := prop ((satellites text).get ⟨i, hi⟩) 2 k,
            size := 8, color := colors.getD i "",
            name := ((satellites text).get ⟨i, hi⟩).name.take 20 } := by
  refine ⟨by simp [frames], ⟨_, frames_get? text prop k hk, by simp, ?_⟩⟩
  intro i hi
  rw [List.get?_map, List.get?_range hi, Option.map_some']
  rw [positions_getD text prop i hi, names_getD text i hi]

/-- Witness for C6 at a concrete input text, propagator and index. -/
theorem frames_preserve_identity_to_position_witness :
    (frames "ISS\n1 25544U\n2 25544"
      (fun _ d k => (d : ℚ) * 1000 + k)).length = NUM_FRAMES :=
  (frames_preserve_identity_to_position "ISS\n1 25544U\n2 25544"
    (fun _ d k => (d : ℚ) * 1000 + k) 7 (by decide)).1

/-- Claim C7: the separately built initial markers coincide with the
frame snapshot at time-grid index 0: the first animation frame is
exactly `initial_markers` (same order, positions, sizes, colors and
names) under the name "0". -/
theorem initial_markers_eq_first_frame (text : String)
    (prop : EarthSatellite → PosSeries) :
    (frames text prop).get? 0 = some ⟨initial_markers text prop, "0"⟩ := by
  rw [frames_get? text prop 0 (by decide)]
  rfl

lemma export_frame_nums_get? (k : Nat) (hk : k < 150) :
    export_frame_nums.get? k = some (2 * k) := by
  rw [export_frame_nums, pyRange]
  have h : (NUM_FRAMES - 0 + (2 - 1)) / 2 = 150 := by decide
  rw [h, List.get?_map, List.get?_range hk, Option.map_some']
  rw [Nat.zero_add]

set_option maxRecDepth 10000 in
/-- Claim C3: with the time grid of size NUM_FRAMES = 300 and export
stride 2, the export loop produces exactly 150 snapshots; the k-th
exported snapshot references time-grid index 2k, so the referenced
indices are pairwise distinct and strictly increasing, and the k-th
exported snapshot is the marker data of the frame at index 2k. -/
theorem export_produces_150_strided_frames :
    export_frame_nums.length = 150 ∧
    (∀ k, k < 150 → export_frame_nums.get? k = some (2 * k)) ∧
    List.Pairwise (· < ·) export_frame_nums ∧
    (∀ (text : String) (prop : EarthSatellite → PosSeries) (k : Nat),
      k < 150 →
      (exported_frames text prop).get? k =
        some (((frames text prop).getD (2 * k) default).data)) := by
  refine ⟨by decide, fun k hk => export_frame_nums_get? k hk, by decide, ?_⟩
  intro text prop k hk
  rw [exported_frames, List.get?_map, export_frame_nums_get? k hk,
    Option.map_some']

/-- Witness for C3 at concrete indices and input. -/
theorem export_produces_150_strided_frames_witness :
    export_frame_nums.get? 10 = some 20 ∧
    (exported_frames "" (fun _ _ _ => 0)).get? 0 =
      some (((frames "" (fun _ _ _ => 0)).getD 0 default).data) :=
  ⟨export_produces_150_strided_frames.2.1 10 (by decide),
    export_produces_150_strided_frames.2.2.2 "" (fun _ _ _ => 0) 0 (by decide)⟩

lemma satellites_length_le (text : String) :
    (satellites text).length ≤ MAX_SATS := by
  rw [satellites, load_satellites_eq]
  exact takeCap_length_le _ _

set_option maxRecDepth 8000 in
lemma colors_getD_mod (i : Nat) (hi : i < MAX_SATS) :
    colors.getD i "" = base_colors.getD (i % 10) "" := by
  revert i
  decide

lemma getD_map_range {α : Type} [Inhabited α] (f : Nat → α) (n i : Nat)
    (hi : i < n) :
    ((List.range n).map f).getD i default = f i := by
  rw [List.getD_eq_getElem _ _ (by simpa using hi)]
  simp

lemma orbit_traces_color (text : String) (prop : EarthSatellite → PosSeries)
    (i : Nat) (hi : i < (satellites text).length) :
    ((orbit_traces text prop).getD i default).color = colors.getD i "" := by
  have hlen : i < (orbit_traces text prop).length := by
    simpa [orbit_traces, positions] using hi
  rw [List.getD_eq_getElem _ _ hlen]
  simp [orbit_traces]

lemma initial_markers_color (text : String) (prop : EarthSatellite → PosSeries)
    (i : Nat) (hi : i < (satellites text).length) :
    ((initial_markers text prop).getD i default).color = colors.getD i "" := by
  rw [initial_markers, getD_map_range _ _ _ hi]

lemma frames_marker_color (text : String) (prop : EarthSatellite → PosSeries)
    (k i : Nat) (hk : k < NUM_FRAMES) (hi : i < (satellites text).length) :
    (((frames text prop).getD k default).data.getD i default).color =
      colors.getD i "" := by
  have hk' : k < (frames text prop).length := by simpa [frames] using hk
  rw [List.getD_eq_getElem _ _ hk']
  simp only [frames, List.getElem_map, List.getElem_range]
  rw [getD_map_range _ _ _ hi]

/-- Claim C9: the replicated color list has length
10 * (MAX_SATS / 10 + 1), which is at least MAX_SATS, so the per-index
color lookup is in bounds; for every satellite index below MAX_SATS the
color it receives — in its orbit trace, its initial marker, and its
marker in every animation frame — is the base 10-color palette entry at
index i mod 10. -/
theorem color_cycle_invariant :
    colors.length = 10 * (MAX_SATS / 10 + 1) ∧
    MAX_SATS ≤ colors.length ∧
    (∀ i, i < MAX_SATS → colors.getD i "" = base_colors.getD (i % 10) "") ∧
    (∀ (text : String) (prop : EarthSatellite → PosSeries) (i : Nat),
      i < (satellites text).length →
      ((orbit_traces text prop).getD i default).color =
          base_colors.getD (i % 10) "" ∧
        ((initial_markers text prop).getD i default).color =
          base_colors.getD (i % 10) "" ∧
        ∀ k, k < NUM_FRAMES →
          (((frames text prop).getD k default).data.getD i default).color =
            base_colors.getD (i % 10) "") := by
  refine ⟨by decide, by decide, fun i hi => colors_getD_mod i hi, ?_⟩
  intro text prop i hi
  have hM : i < MAX_SATS := lt_of_lt_of_le hi (satellites_length_le text)
  rw [← colors_getD_mod i hM]
  exact ⟨orbit_traces_color text prop i hi,
    initial_markers_color text prop i hi,
    fun k hk => frames_marker_color text prop k i hk hi⟩

/-- Witness for C9 at a concrete index and input. -/
theorem color_cycle_invariant_witness :
    colors.getD 12 "" = base_colors.getD 2 "" ∧
    ((initial_markers "SAT\n1 x\n2 y"
      (fun _ _ _ => 0)).getD 0 default).color = base_colors.getD 0 "" :=
  ⟨color_cycle_invariant.2.2.1 12 (by decide),
    (color_cycle_invariant.2.2.2 "SAT\n1 x\n2 y" (fun _ _ _ => 0) 0
      (by rw [satellites, load_satellites_eq]; decide)).2.1⟩

/-- Claim C8: the pipeline is deterministic.  With the external
propagator modelled as a fixed function, runs on identical input text
and configuration agree regardless of the run context (wall-clock time,
random seed): the parsed records, PositionSeries and the whole frame
sequence coincide, and the time-grid anchor is the fixed calendar
instant 2026-02-01 UTC, not the current time. -/
theorem pipeline_deterministic (text : String)
    (prop : EarthSatellite → PosSeries) (e1 e2 : Env) :
    pipeline e1 text prop = pipeline e2 text prop ∧
      start_time = (2026, 2, 1) ∧
      time_grid 0 = 0 ∧ time_grid (NUM_FRAMES - 1) = DURATION_DAYS :=
  ⟨rfl, rfl, by norm_num [time_grid],
    by norm_num [time_grid, NUM_FRAMES, DURATION_DAYS]⟩
